import Mathlib

/-!
Verification of the SwiftVLC log-bridge shim (`Sources/CLibVLC/shim.c`).

The shim adapts libVLC's variadic log callback to a fixed-argument
callback.  We give a shallow embedding of the shim and of the slice of
the C environment it touches:

* pointers are `Ptr` (null or a numeric address);
* the C heap holding `struct swiftvlc_log_context` allocations is an
  association list from addresses to `LogContext` values;
* the libVLC instance's logging registration (`libvlc_log_set` /
  `libvlc_log_unset`) is an `Option` holding the registered handler
  function and its opaque state pointer;
* `vsnprintf(buf, 1024, fmt, args)` is modelled by its abstract
  behaviour on the mathematical formatted output of `fmt`/`args`
  (a byte list): it writes at most `size - 1` bytes of that output into
  the buffer followed by a terminating `0` byte, and the C string later
  read from the buffer is the prefix up to the first `0` byte;
* calling the simplified Swift callback is modelled by recording a
  `CallbackInvocation` value carrying exactly the arguments passed.

`malloc` failure is environmental nondeterminism; `swiftvlc_log_set`
takes a boolean oracle `allocFails` selecting whether the single
`malloc` in the function returns null.
-/

namespace SwiftVLC

/-- A C object pointer: the null pointer or a heap address. -/
inductive Ptr where
  | null : Ptr
  | addr : Nat → Ptr
deriving DecidableEq, Repr

/-- `struct swiftvlc_log_context`: the stored simplified callback
(a function pointer value) and the opaque user-data pointer. -/
structure LogContext where
  callback : Ptr
  data : Ptr
deriving DecidableEq, Repr

/-- The slice of the C heap used by the shim: a bump allocator index and
the live `swiftvlc_log_context` allocations, keyed by address. -/
structure Heap where
  next : Nat
  mem : List (Nat × LogContext)
deriving DecidableEq, Repr

/-- Dereference a `struct swiftvlc_log_context *`: `none` when the
pointer is null or does not point at a live allocation. -/
def Heap.get (h : Heap) (p : Ptr) : Option LogContext :=
  match p with
  | Ptr.null => none
  | Ptr.addr a => List.lookup a h.mem

/-- C `free`: `free(NULL)` is a no-op; otherwise the allocation at the
address is removed from the heap. -/
def Heap.dealloc (h : Heap) (p : Ptr) : Heap :=
  match p with
  | Ptr.null => h
  | Ptr.addr a => { h with mem := h.mem.filter (fun kv => kv.1 != a) }

/-- The handler functions that can be registered with
`libvlc_log_set`; the shim only ever registers `swiftvlc_log_bridge`. -/
inductive HandlerFn where
  | bridge : HandlerFn
deriving DecidableEq, Repr

/-- The libVLC instance state the shim touches: the optional registered
log handler together with its opaque state pointer. -/
structure LibVLCInstance where
  logHandler : Option (HandlerFn × Ptr)
deriving DecidableEq, Repr

/-- `libvlc_log_set(instance, cb, data)`: register `cb` as the log
handler with opaque state `data`, replacing any previous handler. -/
def libvlc_log_set (inst : LibVLCInstance) (cb : HandlerFn) (data : Ptr) :
    LibVLCInstance :=
  { inst with logHandler := some (cb, data) }

/-- `libvlc_log_unset(instance)`: remove the registered log handler. -/
def libvlc_log_unset (inst : LibVLCInstance) : LibVLCInstance :=
  { inst with logHandler := none }

/-- A libVLC log record (`const libvlc_log_t *`): the context metadata
libVLC exposes through `libvlc_log_get_context`.  `module` and `header`
are nullable C strings, modelled as `Option String`. -/
structure LogRecord where
  module : Option String
  header : Option String
  line : Nat
deriving DecidableEq, Repr

/-- `libvlc_log_get_context(ctx, &module, &header, &line)`: fills the
three out-parameters from the record's metadata. -/
def libvlc_log_get_context (r : LogRecord) :
    Option String × Option String × Nat :=
  (r.module, r.header, r.line)

/-- `vsnprintf(buf, size, fmt, args)` with `size > 0`, abstracted over
the mathematical formatted output `out` of `fmt`/`args`: the bytes the
call writes into the buffer are the first `size - 1` bytes of `out`
followed by a terminating `0` byte. -/
def vsnprintf (size : Nat) (out : List Nat) : List Nat :=
  out.take (size - 1) ++ [0]

/-- Reading a buffer as a C string: the bytes before the first `0`. -/
def cstring (buf : List Nat) : List Nat :=
  buf.takeWhile (fun b => b != 0)

/-- One call of the simplified Swift callback, recording the function
pointer invoked and the four arguments passed to it. -/
structure CallbackInvocation where
  callback : Ptr
  data : Ptr
  level : Int
  module : Option String
  message : List Nat
deriving DecidableEq, Repr

/-- `swiftvlc_log_bridge(data, level, ctx, fmt, args)`, abstracted over
the formatted output `fmtOut` of `fmt`/`args`.  It dereferences the
context pointer, formats the message into a stack buffer `buf[1024]`,
extracts the module name (discarding header and line), and calls the
stored callback once.  `none` models the undefined behaviour of
dereferencing a pointer that is not a live allocation. -/
def swiftvlc_log_bridge (heap : Heap) (inst : LibVLCInstance) (data : Ptr)
    (level : Int) (ctx : LogRecord) (fmtOut : List Nat) :
    Option (Heap × LibVLCInstance × List CallbackInvocation) :=
  match heap.get data with
  | none => none
  | some context =>
      let buf := vsnprintf 1024 fmtOut
      let info := libvlc_log_get_context ctx
      some (heap, inst,
        [{ callback := context.callback, data := context.data,
           level := level, module := info.1, message := cstring buf }])

/-- Outcome of `swiftvlc_log_set`: either it returns normally with the
updated heap, updated instance and the returned handle, or execution
faults on the unchecked write `context->callback = callback` through the
null pointer `malloc` returned (the library state is then still the
pre-call one: the fault happens before `libvlc_log_set`). -/
inductive SetResult where
  | ok : Heap → LibVLCInstance → Ptr → SetResult
  | nullDeref : LibVLCInstance → SetResult
deriving DecidableEq, Repr

/-- `swiftvlc_log_set(instance, callback, data)`: allocates a
`swiftvlc_log_context`, stores `callback` and `data` in it with no
validation, registers `swiftvlc_log_bridge` with the context as opaque
state, and returns the context's address.  `allocFails` selects whether
the `malloc` call returns null; the source has no null check, so a
failed allocation leads straight to a null-pointer store. -/
def swiftvlc_log_set (allocFails : Bool) (heap : Heap)
    (inst : LibVLCInstance) (callback : Ptr) (data : Ptr) : SetResult :=
  if allocFails then
    SetResult.nullDeref inst
  else
    let p := heap.next
    let heap' : Heap :=
      { next := heap.next + 1,
        mem := (p, { callback := callback, data := data }) :: heap.mem }
    let inst' := libvlc_log_set inst HandlerFn.bridge (Ptr.addr p)
    SetResult.ok heap' inst' (Ptr.addr p)

/-- The externally visible actions `swiftvlc_log_unset` performs, in
order, used to state that unregistration precedes the release. -/
inductive Action where
  | unregister : Action
  | free : Ptr → Action
deriving DecidableEq, Repr

/-- `swiftvlc_log_unset(instance, context)`: first calls
`libvlc_log_unset(instance)`, then `free(context)`.  Returns the final
heap and instance together with the ordered trace of the two actions. -/
def swiftvlc_log_unset (heap : Heap) (inst : LibVLCInstance)
    (context : Ptr) : Heap × LibVLCInstance × List Action :=
  let inst' := libvlc_log_unset inst
  let heap' := heap.dealloc context
  (heap', inst', [Action.unregister, Action.free context])

/-- One log event fired by the library: if a handler is registered the
library calls it with its opaque state, the event's level, record and
format arguments; otherwise nothing is called. -/
def libvlc_fire_log_event (heap : Heap) (inst : LibVLCInstance)
    (level : Int) (record : LogRecord) (fmtOut : List Nat) :
    Option (Heap × LibVLCInstance × List CallbackInvocation) :=
  match inst.logHandler with
  | none => some (heap, inst, [])
  | some (HandlerFn.bridge, data) =>
      swiftvlc_log_bridge heap inst data level record fmtOut

/-- Reading back a `0`-terminated buffer whose payload contains no `0`
byte recovers exactly the payload. -/
theorem cstring_append_zero (out : List Nat) (h : 0 ∉ out) :
    cstring (out ++ [0]) = out := by
  induction out with
  | nil => rfl
  | cons a t ih =>
      have ha : (a != 0) = true := bne_iff_ne.mpr (fun e => h (by simp [e]))
      have ht : 0 ∉ t := fun m => h (List.mem_cons_of_mem _ m)
      simp only [cstring, List.cons_append, List.takeWhile_cons, ha,
        if_true]
      simpa [cstring] using ih ht

/-- The message the bridge reads back from the buffer when the
formatted output fits: the buffer write is `out ++ [0]` and the C
string read back is `out` itself. -/
theorem cstring_vsnprintf_of_fits (out : List Nat)
    (hfit : out.length ≤ 1023) (hnz : 0 ∉ out) :
    cstring (vsnprintf 1024 out) = out := by
  unfold vsnprintf
  rw [show (1024 : Nat) - 1 = 1023 from rfl, List.take_of_length_le hfit]
  exact cstring_append_zero out hnz

/-- The message the bridge reads back from the buffer when the
formatted output overflows: exactly the first `1023` bytes. -/
theorem cstring_vsnprintf_of_overflow (out : List Nat) (hnz : 0 ∉ out) :
    cstring (vsnprintf 1024 out) = out.take 1023 := by
  unfold vsnprintf
  rw [show (1024 : Nat) - 1 = 1023 from rfl]
  exact cstring_append_zero _ (fun m => hnz (List.mem_of_mem_take m))

/-- C1: for every format string and argument tuple (represented by the
formatted output `fmtOut` the native formatter produces for them) that
fits within the 1024-byte buffer, the message `swiftvlc_log_bridge`
passes to the simplified callback equals the standard formatter's
output `fmtOut` itself. -/
theorem C1_roundtrip_formatting (heap : Heap) (inst : LibVLCInstance)
    (data : Ptr) (context : LogContext) (level : Int) (record : LogRecord)
    (fmtOut : List Nat)
    (hctx : heap.get data = some context)
    (hfit : fmtOut.length ≤ 1023) (hnz : 0 ∉ fmtOut) :
    swiftvlc_log_bridge heap inst data level record fmtOut =
      some (heap, inst,
        [{ callback := context.callback, data := context.data,
           level := level, module := record.module, message := fmtOut }]) := by
  simp [swiftvlc_log_bridge, hctx, libvlc_log_get_context,
    cstring_vsnprintf_of_fits fmtOut hfit hnz]

/-- Witness for C1 at a concrete heap, context and two-byte message. -/
theorem C1_roundtrip_formatting_witness :
    swiftvlc_log_bridge ⟨2, [(1, ⟨Ptr.null, Ptr.null⟩)]⟩ ⟨none⟩
        (Ptr.addr 1) 3 ⟨some "core", none, 0⟩ [104, 105] =
      some (⟨2, [(1, ⟨Ptr.null, Ptr.null⟩)]⟩, ⟨none⟩,
        [{ callback := Ptr.null, data := Ptr.null, level := 3,
           module := some "core", message := [104, 105] }]) :=
  C1_roundtrip_formatting ⟨2, [(1, ⟨Ptr.null, Ptr.null⟩)]⟩ ⟨none⟩
    (Ptr.addr 1) ⟨Ptr.null, Ptr.null⟩ 3 ⟨some "core", none, 0⟩ [104, 105]
    (by decide) (by decide) (by decide)

/-- C2: when the formatted output exceeds 1023 bytes, the delivered
message is exactly the first 1023 bytes; the bytes written into the
1024-byte stack buffer are that prefix plus one terminating `0`, and
their number never exceeds 1024. -/
theorem C2_truncation (heap : Heap) (inst : LibVLCInstance)
    (data : Ptr) (context : LogContext) (level : Int) (record : LogRecord)
    (fmtOut : List Nat)
    (hctx : heap.get data = some context)
    (hlong : 1023 < fmtOut.length) (hnz : 0 ∉ fmtOut) :
    swiftvlc_log_bridge heap inst data level record fmtOut =
      some (heap, inst,
        [{ callback := context.callback, data := context.data,
           level := level, module := record.module,
           message := fmtOut.take 1023 }]) ∧
    (fmtOut.take 1023).length = 1023 ∧
    vsnprintf 1024 fmtOut = fmtOut.take 1023 ++ [0] ∧
    (vsnprintf 1024 fmtOut).length ≤ 1024 := by
  refine ⟨?_, ?_, rfl, ?_⟩
  · simp [swiftvlc_log_bridge, hctx, libvlc_log_get_context,
      cstring_vsnprintf_of_overflow fmtOut hnz]
  · simp [List.length_take]
    omega
  · simp [vsnprintf, List.length_take]

/-- Witness for C2 at a concrete 1024-byte formatted output. -/
theorem C2_truncation_witness :
    swiftvlc_log_bridge ⟨2, [(1, ⟨Ptr.null, Ptr.null⟩)]⟩ ⟨none⟩
        (Ptr.addr 1) 4 ⟨none, none, 0⟩ (List.replicate 1024 65) =
      some (⟨2, [(1, ⟨Ptr.null, Ptr.null⟩)]⟩, ⟨none⟩,
        [{ callback := Ptr.null, data := Ptr.null, level := 4,
           module := none,
           message := (List.replicate 1024 65).take 1023 }]) ∧
    ((List.replicate 1024 65 : List Nat).take 1023).length = 1023 ∧
    vsnprintf 1024 (List.replicate 1024 65) =
      (List.replicate 1024 65 : List Nat).take 1023 ++ [0] ∧
    (vsnprintf 1024 (List.replicate 1024 65)).length ≤ 1024 :=
  C2_truncation ⟨2, [(1, ⟨Ptr.null, Ptr.null⟩)]⟩ ⟨none⟩ (Ptr.addr 1)
    ⟨Ptr.null, Ptr.null⟩ 4 ⟨none, none, 0⟩ (List.replicate 1024 65)
    (by decide) (by rw [List.length_replicate]; omega)
    (by simp only [List.mem_replicate, ne_eq]; omega)

/-- C3: when allocation succeeds, `swiftvlc_log_set` returns normally;
the returned handle addresses a fresh `LogContext` holding exactly the
given callback and userData, and the library's logging subsystem now
holds the trampoline `swiftvlc_log_bridge` with that `LogContext`'s
address as opaque state. -/
theorem C3_install_registers_context (heap : Heap) (inst : LibVLCInstance)
    (callback : Ptr) (data : Ptr) :
    ∃ heap' inst',
      swiftvlc_log_set false heap inst callback data =
        SetResult.ok heap' inst' (Ptr.addr heap.next) ∧
      heap'.get (Ptr.addr heap.next) =
        some { callback := callback, data := data } ∧
      inst' = libvlc_log_set inst HandlerFn.bridge (Ptr.addr heap.next) ∧
      inst'.logHandler = some (HandlerFn.bridge, Ptr.addr heap.next) := by
  refine ⟨_, _, rfl, ?_, rfl, rfl⟩
  simp [Heap.get, List.lookup]

/-- C4: on a log event the trampoline calls the stored callback with
exactly the stored userData, the event's level, the module name
`libvlc_log_get_context` reports from the record (which may be `none`),
and the formatted message; the record's header and line do not affect
the call. -/
theorem C4_callback_arguments (heap : Heap) (inst : LibVLCInstance)
    (data : Ptr) (context : LogContext) (level : Int) (record : LogRecord)
    (fmtOut : List Nat)
    (hctx : heap.get data = some context) :
    swiftvlc_log_bridge heap inst data level record fmtOut =
      some (heap, inst,
        [{ callback := context.callback, data := context.data,
           level := level, module := record.module,
           message := cstring (vsnprintf 1024 fmtOut) }]) ∧
    ∀ header' line',
      swiftvlc_log_bridge heap inst data level
          { record with header := header', line := line' } fmtOut =
        swiftvlc_log_bridge heap inst data level record fmtOut := by
  constructor
  · simp [swiftvlc_log_bridge, hctx, libvlc_log_get_context]
  · intro header' line'
    simp [swiftvlc_log_bridge, hctx, libvlc_log_get_context]

/-- Witness for C4 at a concrete heap and a record with no module. -/
theorem C4_callback_arguments_witness :
    (swiftvlc_log_bridge ⟨2, [(1, ⟨Ptr.addr 7, Ptr.addr 9⟩)]⟩ ⟨none⟩
        (Ptr.addr 1) 2 ⟨none, some "hdr", 5⟩ [97] =
      some (⟨2, [(1, ⟨Ptr.addr 7, Ptr.addr 9⟩)]⟩, ⟨none⟩,
        [{ callback := Ptr.addr 7, data := Ptr.addr 9, level := 2,
           module := none, message := cstring (vsnprintf 1024 [97]) }])) ∧
    ∀ header' line',
      swiftvlc_log_bridge ⟨2, [(1, ⟨Ptr.addr 7, Ptr.addr 9⟩)]⟩ ⟨none⟩
          (Ptr.addr 1) 2
          { module := none, header := header', line := line' } [97] =
        swiftvlc_log_bridge ⟨2, [(1, ⟨Ptr.addr 7, Ptr.addr 9⟩)]⟩ ⟨none⟩
          (Ptr.addr 1) 2 ⟨none, some "hdr", 5⟩ [97] :=
  C4_callback_arguments ⟨2, [(1, ⟨Ptr.addr 7, Ptr.addr 9⟩)]⟩ ⟨none⟩
    (Ptr.addr 1) ⟨Ptr.addr 7, Ptr.addr 9⟩ 2 ⟨none, some "hdr", 5⟩ [97]
    (by decide)

/-- C5: `swiftvlc_log_unset` performs the unregistration strictly
before the release (the action trace is `[unregister, free]`), and in
the resulting state no handler is registered, so firing any further log
event calls no callback.  The sequential model makes the library's
unregistration synchronous with respect to log calls, which is exactly
the claim's proviso. -/
theorem C5_unset_order_and_quiescence (heap : Heap) (inst : LibVLCInstance)
    (context : Ptr) :
    (swiftvlc_log_unset heap inst context).2.2 =
        [Action.unregister, Action.free context] ∧
    (swiftvlc_log_unset heap inst context).2.1.logHandler = none ∧
    ∀ level record fmtOut,
      libvlc_fire_log_event (swiftvlc_log_unset heap inst context).1
          (swiftvlc_log_unset heap inst context).2.1 level record fmtOut =
        some ((swiftvlc_log_unset heap inst context).1,
          (swiftvlc_log_unset heap inst context).2.1, []) := by
  refine ⟨rfl, rfl, fun level record fmtOut => ?_⟩
  simp [libvlc_fire_log_event, swiftvlc_log_unset, libvlc_log_unset]

/-- C6 (divergence): when `malloc` fails, `swiftvlc_log_set` does not
fail with a clean allocation error — `SetResult` has no such outcome,
because the source checks nothing — it faults on the null-pointer store
`context->callback = callback`, before any registration: the library
state carried by the fault outcome is the unchanged input state. -/
theorem C6_alloc_failure_faults (heap : Heap) (inst : LibVLCInstance)
    (callback : Ptr) (data : Ptr) :
    swiftvlc_log_set true heap inst callback data =
      SetResult.nullDeref inst := rfl

/-- C7: after a registration made with `userData = NULL`, every
invocation the trampoline makes on a fired log event passes `NULL` as
the callback's userData argument. -/
theorem C7_null_userdata_passthrough (heap : Heap) (inst : LibVLCInstance)
    (callback : Ptr) (heap' : Heap) (inst' : LibVLCInstance) (p : Ptr)
    (hset : swiftvlc_log_set false heap inst callback Ptr.null =
      SetResult.ok heap' inst' p)
    (level : Int) (record : LogRecord) (fmtOut : List Nat)
    (result : Heap × LibVLCInstance × List CallbackInvocation)
    (hfire : libvlc_fire_log_event heap' inst' level record fmtOut =
      some result) :
    ∀ inv ∈ result.2.2, inv.data = Ptr.null := by
  rw [swiftvlc_log_set] at hset
  simp only [Bool.false_eq_true, if_false, SetResult.ok.injEq] at hset
  obtain ⟨h1, h2, h3⟩ := hset
  subst h1
  subst h2
  subst h3
  simp only [libvlc_fire_log_event, libvlc_log_set, swiftvlc_log_bridge,
    Heap.get, List.lookup, beq_self_eq_true, Option.some.injEq] at hfire
  subst hfire
  intro inv hinv
  simp only [List.mem_singleton] at hinv
  subst hinv
  rfl

/-- Witness for C7: a concrete install with null userData followed by a
concrete log event; the delivered invocation carries null userData. -/
theorem C7_null_userdata_passthrough_witness :
    ({ callback := Ptr.addr 7, data := Ptr.null, level := 2,
       module := none, message := [104] } : CallbackInvocation).data =
      Ptr.null :=
  C7_null_userdata_passthrough ⟨1, []⟩ ⟨none⟩ (Ptr.addr 7)
    ⟨2, [(1, ⟨Ptr.addr 7, Ptr.null⟩)]⟩
    ⟨some (HandlerFn.bridge, Ptr.addr 1)⟩ (Ptr.addr 1) rfl
    2 ⟨none, none, 0⟩ [104]
    (⟨2, [(1, ⟨Ptr.addr 7, Ptr.null⟩)]⟩,
      ⟨some (HandlerFn.bridge, Ptr.addr 1)⟩,
      [{ callback := Ptr.addr 7, data := Ptr.null, level := 2,
         module := none, message := [104] }])
    (by decide)
    { callback := Ptr.addr 7, data := Ptr.null, level := 2,
      module := none, message := [104] }
    (by simp)

/-- C8: a returning trampoline call leaves the heap (hence the
`LogContext` it read) and the library state exactly as they were and
records exactly one callback invocation; the formatted buffer is a
per-call local value, never stored anywhere. -/
theorem C8_bridge_frame (heap : Heap) (inst : LibVLCInstance) (data : Ptr)
    (level : Int) (record : LogRecord) (fmtOut : List Nat)
    (heap' : Heap) (inst' : LibVLCInstance)
    (calls : List CallbackInvocation)
    (h : swiftvlc_log_bridge heap inst data level record fmtOut =
      some (heap', inst', calls)) :
    heap' = heap ∧ inst' = inst ∧ calls.length = 1 ∧
      heap'.get data = heap.get data := by
  unfold swiftvlc_log_bridge at h
  cases hc : heap.get data with
  | none => rw [hc] at h; exact absurd h (by simp)
  | some context =>
      rw [hc] at h
      simp only [Option.some.injEq, Prod.mk.injEq] at h
      obtain ⟨h1, h2, h3⟩ := h
      subst h1
      subst h2
      subst h3
      exact ⟨rfl, rfl, rfl, hc⟩

/-- Witness for C8 at a concrete trampoline call. -/
theorem C8_bridge_frame_witness :
    (⟨2, [(1, ⟨Ptr.addr 7, Ptr.addr 9⟩)]⟩ : Heap) =
        ⟨2, [(1, ⟨Ptr.addr 7, Ptr.addr 9⟩)]⟩ ∧
    (⟨none⟩ : LibVLCInstance) = ⟨none⟩ ∧
    ([{ callback := Ptr.addr 7, data := Ptr.addr 9, level := 2,
        module := none, message := [97] }] :
      List CallbackInvocation).length = 1 ∧
    Heap.get ⟨2, [(1, ⟨Ptr.addr 7, Ptr.addr 9⟩)]⟩ (Ptr.addr 1) =
      Heap.get ⟨2, [(1, ⟨Ptr.addr 7, Ptr.addr 9⟩)]⟩ (Ptr.addr 1) :=
  C8_bridge_frame ⟨2, [(1, ⟨Ptr.addr 7, Ptr.addr 9⟩)]⟩ ⟨none⟩
    (Ptr.addr 1) 2 ⟨none, none, 0⟩ [97]
    ⟨2, [(1, ⟨Ptr.addr 7, Ptr.addr 9⟩)]⟩ ⟨none⟩
    [{ callback := Ptr.addr 7, data := Ptr.addr 9, level := 2,
       module := none, message := [97] }]
    (by decide)

/-- C9: `swiftvlc_log_set` validates nothing: with a null callback
function pointer it still succeeds, stores the null pointer as given,
and the next fired log event makes the trampoline invoke that null
function pointer. -/
theorem C9_no_callback_validation (heap : Heap) (inst : LibVLCInstance)
    (data : Ptr) (level : Int) (record : LogRecord) (fmtOut : List Nat) :
    ∃ heap' inst',
      swiftvlc_log_set false heap inst Ptr.null data =
        SetResult.ok heap' inst' (Ptr.addr heap.next) ∧
      heap'.get (Ptr.addr heap.next) =
        some { callback := Ptr.null, data := data } ∧
      ∃ inv, libvlc_fire_log_event heap' inst' level record fmtOut =
          some (heap', inst', [inv]) ∧ inv.callback = Ptr.null := by
  refine ⟨_, _, rfl, ?_, ?_⟩
  · simp [Heap.get, List.lookup]
  · refine ⟨CallbackInvocation.mk Ptr.null data level record.module
        (cstring (vsnprintf 1024 fmtOut)), ?_, rfl⟩
    simp [libvlc_fire_log_event, libvlc_log_set, swiftvlc_log_bridge,
      Heap.get, List.lookup, libvlc_log_get_context]

/-- C10: a null-handle uninstall still unregisters the library's log
handler and leaves the heap untouched (`free(NULL)` releases nothing);
the call completes without a fault. -/
theorem C10_null_handle_unset (heap : Heap) (inst : LibVLCInstance) :
    swiftvlc_log_unset heap inst Ptr.null =
      (heap, libvlc_log_unset inst,
        [Action.unregister, Action.free Ptr.null]) ∧
    (libvlc_log_unset inst).logHandler = none :=
  ⟨rfl, rfl⟩

end SwiftVLC
